import Mathlib

/-
Verification of the Aztec-decoding CLI script (Scripts/aztec_decode.py).

The script wraps the external zxing-cpp library.  The library and the
Pillow image library are opaque collaborators: they are modelled as
parameters of an environment record (availability flags, the image
returned by Image.open, the barcode list returned by read_barcodes).
The script logic itself (argument handling, file check, result-dict
assembly, rendering of a module grid, print formatting) is translated
definition by definition from the source.

Conventions of the embedding:
  * Python exceptions that escape a function are an `Except.error`
    value (`PyExc`); the only uncaught exception in the script is the
    NameError at line 93 (`reader_options` is used in decode_aztec
    without ever being defined there).
  * The calls the script makes into zxing-cpp are recorded in a trace
    (`List LibCall`) so that statements about which options are passed
    to read_barcodes can be made.
  * stdout and stderr are lists of printed strings; verbose-mode
    diagnostic prints to stderr are not modelled (no claim mentions
    them), main's own prints are modelled exactly.
  * json.dumps(result, indent=2) is modelled by a JSON value renderer
    that agrees with json.dumps up to insignificant whitespace.
-/

set_option linter.unusedVariables false

namespace AztecDecode

/-- RGB colour triple, as used by the PIL image in the script. -/
abbrev Color := Nat × Nat × Nat

/-- The colour the rendered image is initialised with: Image.new(..., 'white'). -/
def whiteC : Color := (255, 255, 255)

/-- The colour written for a dark module: pixels[...] = (0, 0, 0). -/
def blackC : Color := (0, 0, 0)

/-- Barcode formats of the external library that the script mentions. -/
inductive BarcodeFormat where
  | Aztec
  | QRCode
  | DataMatrix
  | Code128
  deriving DecidableEq, Repr

/-- Python str(barcode.format) for the formats above. -/
def strFormat : BarcodeFormat → String
  | .Aztec => "Aztec"
  | .QRCode => "QRCode"
  | .DataMatrix => "DataMatrix"
  | .Code128 => "Code128"

/-- The formats field of zxing-cpp ReaderOptions, restricted to the
values the script actually assigns (the default, the single Aztec
format at line 191, and LinearCodes|MatrixCodes at line 93 which is
never reached). -/
inductive FormatSpec where
  | all
  | aztecOnly
  | linearAndMatrix
  deriving DecidableEq, Repr

/-- zxing-cpp ReaderOptions, with the two fields the script sets. -/
structure ReaderOptions where
  formats : FormatSpec
  try_harder : Bool
  deriving DecidableEq, Repr

/-- The bounding box object of a zxing-cpp barcode result. -/
structure BPosition where
  top_left : Int × Int
  top_right : Int × Int
  bottom_right : Int × Int
  bottom_left : Int × Int
  deriving DecidableEq, Repr

/-- The position dictionary assembled at lines 126-131 of the script. -/
structure PositionDict where
  top_left : Int × Int
  top_right : Int × Int
  bottom_right : Int × Int
  bottom_left : Int × Int
  deriving DecidableEq, Repr

/-- Lines 126-131: the dict copies the four corners of barcode.position. -/
def positionDict (p : BPosition) : PositionDict :=
  { top_left := p.top_left, top_right := p.top_right,
    bottom_right := p.bottom_right, bottom_left := p.bottom_left }

/-- A barcode object returned by zxingcpp.read_barcodes.  The `bytes`,
`raw_bytes` and `position` attributes are optional because the script
guards each access with hasattr. -/
structure Barcode where
  format : BarcodeFormat
  text : String
  bytes : Option (List (Fin 256))
  raw_bytes : Option (List (Fin 256))
  position : Option BPosition
  deriving DecidableEq, Repr

/-- The result dictionary of decode_aztec / decode_from_raw_modules.
It always has exactly these six keys (lines 39-46 and 146-153 build it
as a literal with these keys and later statements only assign to
existing keys). -/
structure ResultDict where
  success : Bool
  text : Option String
  bytes : Option (List (Fin 256))
  format : Option String
  position : Option PositionDict
  error : Option String
  deriving DecidableEq, Repr

/-- Lines 39-46 / 146-153: the initial result value. -/
def initResult : ResultDict :=
  { success := false, text := none, bytes := none, format := none,
    position := none, error := none }

/-- A JSON value, for modelling json.dumps(result, indent=2). -/
inductive Json where
  | null
  | bool (b : Bool)
  | str (s : String)
  | num (n : Int)
  | arr (xs : List Json)
  | obj (fields : List (String × Json))
  deriving Repr

/-- Rendering of a JSON value.  Agrees with Python json.dumps on the
values the script serialises, up to whitespace (indent=2 inserts line
breaks; separators and key order are identical). -/
def Json.dump : Json → String
  | .null => "null"
  | .bool true => "true"
  | .bool false => "false"
  | .str s => "\"" ++ s ++ "\""
  | .num n => toString n
  | .arr xs => "[" ++ String.intercalate ", " (xs.attach.map (fun x => Json.dump x.1)) ++ "]"
  | .obj fs => "\x7b" ++
      String.intercalate ", "
        (fs.attach.map (fun p => "\"" ++ p.1.1 ++ "\": " ++ Json.dump p.1.2)) ++ "\x7d"
decreasing_by
  · have h := List.sizeOf_lt_of_mem x.2
    simp only [Json.arr.sizeOf_spec]
    omega
  · have h := List.sizeOf_lt_of_mem p.2
    obtain ⟨⟨s, j⟩, hp⟩ := p
    simp only [Prod.mk.sizeOf_spec] at h
    simp only [Json.obj.sizeOf_spec]
    omega

/-- The keys of a JSON object (empty for non-objects). -/
def Json.keys : Json → List String
  | .obj fs => fs.map Prod.fst
  | _ => []

/-- Whether a JSON value is an object. -/
def Json.isObj : Json → Bool
  | .obj _ => true
  | _ => false

/-- An Option serialised by json.dumps: None becomes null. -/
def optJson (f : α → Json) : Option α → Json
  | none => .null
  | some a => f a

/-- A list of byte values serialised by json.dumps. -/
def bytesJson (bs : List (Fin 256)) : Json :=
  .arr (bs.map (fun b => .num b.val))

/-- A pair (Python tuple) serialised by json.dumps as a two-element array. -/
def pairJson (p : Int × Int) : Json :=
  .arr [.num p.1, .num p.2]

/-- The position sub-dictionary serialised by json.dumps. -/
def posJson (p : PositionDict) : Json :=
  .obj [("top_left", pairJson p.top_left), ("top_right", pairJson p.top_right),
        ("bottom_right", pairJson p.bottom_right), ("bottom_left", pairJson p.bottom_left)]

/-- The JSON object json.dumps(result, indent=2) serialises at line 237:
the result dict with its six keys in insertion order. -/
def resultToJson (r : ResultDict) : Json :=
  .obj [("success", .bool r.success),
        ("text", optJson .str r.text),
        ("bytes", optJson bytesJson r.bytes),
        ("format", optJson .str r.format),
        ("position", optJson posJson r.position),
        ("error", optJson .str r.error)]

/-! ## The rendering of a module grid (lines 167-184) -/

/-- Line 169: modules around the symbol left blank. -/
def quiet_zone : Nat := 4

/-- Line 170: pixels per module. -/
def module_size : Nat := 10

/-- Line 172: img_size = (size + 2 * quiet_zone) * module_size. -/
def img_size (size : Nat) : Nat := (size + 2 * quiet_zone) * module_size

/-- A pixel write: pixels[p] = c. -/
def setPixel (pix : Nat × Nat → Color) (p : Nat × Nat) (c : Color) : Nat × Nat → Color :=
  fun q => if q = p then c else pix q

/-- Lines 182-184: the two inner loops that paint one dark module,
a module_size x module_size block whose top-left pixel is (px, py). -/
def drawBlock (pix : Nat × Nat → Color) (px py : Nat) : Nat × Nat → Color :=
  (List.range module_size).foldl
    (fun acc dy =>
      (List.range module_size).foldl
        (fun acc2 dx => setPixel acc2 (px + dx, py + dy) blackC) acc)
    pix

/-- The module grid accessor modules[y][x].  For the square grids the
script is given (every row as long as the grid) this equals the Python
indexing; a ragged shorter row would raise IndexError in Python. -/
def gridGet (modules : List (List Bool)) (y x : Nat) : Bool :=
  (modules.getD y []).getD x false

/-- Lines 173-184: the pixel function of the rendered image.  The image
starts all white and the loops over y and x paint each dark module. -/
def renderPixels (modules : List (List Bool)) : Nat × Nat → Color :=
  (List.range modules.length).foldl
    (fun acc y =>
      (List.range modules.length).foldl
        (fun acc2 x =>
          if gridGet modules y x then
            drawBlock acc2 ((quiet_zone + x) * module_size) ((quiet_zone + y) * module_size)
          else acc2)
        acc)
    (fun _ => whiteC)

/-- An image built by the script and handed to read_barcodes. -/
structure RenderedImage where
  width : Nat
  height : Nat
  pixels : Nat × Nat → Color

/-- Lines 167-184: the whole rendering step of decode_from_raw_modules. -/
def renderImage (modules : List (List Bool)) : RenderedImage :=
  { width := img_size modules.length,
    height := img_size modules.length,
    pixels := renderPixels modules }

/-! ## The script functions -/

/-- An image handle returned by PIL Image.open: an opaque object of the
external library, of which the script reads the mode (and, verbosely,
the size). -/
structure LoadedImage where
  mode : String
  size : Nat × Nat
  deriving DecidableEq, Repr

/-- A Python exception escaping a function of the script.  The only
uncaught exception in the script is the NameError raised at line 93,
where reader_options is used without having been defined. -/
inductive PyExc where
  | nameError (name : String)
  deriving DecidableEq, Repr

/-- One call of the script into zxingcpp.read_barcodes, with the image
and the reader options passed (decode_aztec at line 80 passes no
options at all, hence the Option). -/
inductive LibCall where
  | readBarcodesCall (img : LoadedImage) (opts : Option ReaderOptions)
  | readRenderedCall (img : RenderedImage) (opts : ReaderOptions)

/-- The external world of decode_aztec: availability of the two
libraries, the behaviour of Image.open, of Image.convert and of
zxingcpp.read_barcodes.  All of them are opaque collaborators. -/
structure AztecEnv where
  zxingAvailable : Bool
  pillowAvailable : Bool
  openImage : String → Except String LoadedImage
  convert : LoadedImage → String → LoadedImage
  readBarcodes : LoadedImage → Option ReaderOptions → Except String (List Barcode)

/-- Lines 70-71: the image is converted to RGB unless its mode is
already RGB or L. -/
def modeConvert (env : AztecEnv) (img0 : LoadedImage) : LoadedImage :=
  if img0.mode = "RGB" ∨ img0.mode = "L" then img0 else env.convert img0 "RGB"

/-- Lines 27-133: decode_aztec.  Returns the result dict (or the
escaping exception) together with the trace of read_barcodes calls.

Branches, in source order: the two import guards, Image.open with its
try/except, the mode conversion, the read_barcodes try/except, the
Python-side filter to Aztec format, the empty case (where the verbose
branch hits the NameError of line 93 before it can call read_barcodes
again), and the assembly of the success dict from the first filtered
barcode with its hasattr guards. -/
def decode_aztec (env : AztecEnv) (image_path : String) (verbose : Bool) :
    Except PyExc ResultDict × List LibCall :=
  if env.zxingAvailable = false then
    (.ok { initResult with error := some "zxing-cpp not installed. Run: pip install zxing-cpp" }, [])
  else if env.pillowAvailable = false then
    (.ok { initResult with error := some "Pillow not installed. Run: pip install pillow" }, [])
  else
    match env.openImage image_path with
    | .error e => (.ok { initResult with error := some ("Failed to load image: " ++ e) }, [])
    | .ok img0 =>
      -- line 62/70-71: img is the opened image, converted to RGB if needed
      match env.readBarcodes (modeConvert env img0) none with
      | .error e =>
        (.ok { initResult with error := some ("zxing-cpp read error: " ++ e) },
         [.readBarcodesCall (modeConvert env img0) none])
      | .ok allBarcodes =>
        match allBarcodes.filter (fun b => decide (b.format = BarcodeFormat.Aztec)) with
        | [] =>
          if verbose then
            -- line 93: reader_options.formats = ...  with reader_options undefined
            (.error (PyExc.nameError "reader_options"),
             [.readBarcodesCall (modeConvert env img0) none])
          else
            (.ok { initResult with error := some "No Aztec barcode detected in image" },
             [.readBarcodesCall (modeConvert env img0) none])
        | barcode :: _ =>
          let r1 : ResultDict :=
            { initResult with
              success := true
              format := some (strFormat barcode.format)
              text := some barcode.text }
          let r2 : ResultDict :=
            match barcode.bytes with
            | some bs => { r1 with bytes := some bs }
            | none =>
              match barcode.raw_bytes with
              | some bs => { r1 with bytes := some bs }
              | none => r1
          let r3 : ResultDict :=
            match barcode.position with
            | some p => { r2 with position := some (positionDict p) }
            | none => r2
          (.ok r3, [.readBarcodesCall (modeConvert env img0) none])

/-- The external world of decode_from_raw_modules: the image it decodes
is built by the script itself, so only the library availability and
read_barcodes behaviour are environmental. -/
structure RawEnv where
  zxingAvailable : Bool
  pillowAvailable : Bool
  readBarcodes : RenderedImage → ReaderOptions → Except String (List Barcode)

/-- Lines 190-192: the reader options decode_from_raw_modules builds
(default options, then formats := Aztec and try_harder := True). -/
def rawReaderOptions : ReaderOptions :=
  { formats := FormatSpec.aztecOnly, try_harder := true }

/-- Lines 136-212: decode_from_raw_modules.  Every exception here is
caught, so the function always returns a dict. -/
def decode_from_raw_modules (env : RawEnv) (modules : List (List Bool)) (verbose : Bool) :
    ResultDict × List LibCall :=
  if env.zxingAvailable = false then
    ({ initResult with error := some "zxing-cpp not installed" }, [])
  else if env.pillowAvailable = false then
    ({ initResult with error := some "Pillow not installed" }, [])
  else
    -- lines 167-184 build the image; lines 190-192 the options
    match env.readBarcodes (renderImage modules) rawReaderOptions with
    | .error e =>
      ({ initResult with error := some ("Decode error: " ++ e) },
       [.readRenderedCall (renderImage modules) rawReaderOptions])
    | .ok [] =>
      ({ initResult with error := some "No Aztec barcode detected" },
       [.readRenderedCall (renderImage modules) rawReaderOptions])
    | .ok (barcode :: _) =>
      let r1 : ResultDict :=
        { initResult with
          success := true
          format := some (strFormat barcode.format)
          text := some barcode.text }
      let r2 : ResultDict :=
        match barcode.bytes with
        | some bs => { r1 with bytes := some bs }
        | none => r1
      (r2, [.readRenderedCall (renderImage modules) rawReaderOptions])

/-! ## main (lines 215-248) -/

/-- The parsed command-line arguments of the script. -/
structure Args where
  image : String
  verbose : Bool
  raw : Bool
  json : Bool
  deriving DecidableEq, Repr

/-- The external world of main: the filesystem check Path(...).exists()
and the environment of decode_aztec. -/
structure MainEnv where
  fileExists : String → Bool
  dec : AztecEnv

/-- The observable outcome of one run of main: the process exit code,
the lines printed to stdout and stderr, and how many times decode_aztec
was entered (0 or 1), which lets the missing-file short-circuit be
stated. -/
structure MainOutcome where
  exitCode : Nat
  stdout : List String
  stderr : List String
  decodeCalls : Nat
  deriving DecidableEq, Repr

/-- Python print(opt) prints the string, or None for a missing value. -/
def showOpt (o : Option String) : String := o.getD "None"

/-- Python truthiness of the bytes entry at line 241: None and the
empty list are falsy. -/
def bytesTruthy : Option (List (Fin 256)) → Bool
  | none => false
  | some [] => false
  | some (_ :: _) => true

/-- One lowercase hex digit, as produced by the x format spec. -/
def hexDigitChar (n : Nat) : Char :=
  if n < 10 then Char.ofNat (48 + n) else Char.ofNat (87 + n)

/-- Python format(b, "02x") for a byte value 0-255: exactly two
lowercase hex digits. -/
def hex2 (b : Fin 256) : String :=
  String.mk [hexDigitChar (b.val / 16), hexDigitChar (b.val % 16)]

/-- Line 242: " ".join(f"02x-formatted b" for b in result["bytes"]). -/
def hexJoin (bs : List (Fin 256)) : String :=
  String.intercalate " " (bs.map hex2)

/-- The message the Python interpreter prints to stderr when the
NameError of line 93 escapes main (modelled without the multi-line
traceback detail). -/
def tracebackMsg : PyExc → String
  | .nameError n => "Traceback (most recent call last): NameError: name " ++ n ++ " is not defined"

/-- Lines 215-248: main, after argparse has produced args.  An uncaught
exception from decode_aztec makes the interpreter print a traceback to
stderr and exit with status 1. -/
def main (env : MainEnv) (args : Args) : MainOutcome :=
  if env.fileExists args.image = false then
    { exitCode := 1, stdout := [],
      stderr := ["Error: File not found: " ++ args.image], decodeCalls := 0 }
  else
    match (decode_aztec env.dec args.image args.verbose).1 with
    | .error e =>
      { exitCode := 1, stdout := [], stderr := [tracebackMsg e], decodeCalls := 1 }
    | .ok result =>
      if args.json then
        { exitCode := if result.success then 0 else 1,
          stdout := [Json.dump (resultToJson result)], stderr := [], decodeCalls := 1 }
      else if result.success then
        if args.raw && bytesTruthy result.bytes then
          { exitCode := 0, stdout := ["Bytes: " ++ hexJoin (result.bytes.getD [])],
            stderr := [], decodeCalls := 1 }
        else
          { exitCode := 0, stdout := [showOpt result.text], stderr := [], decodeCalls := 1 }
      else
        { exitCode := 1, stdout := [],
          stderr := ["Error: " ++ showOpt result.error], decodeCalls := 1 }

/-! ## Concrete sample data and environments -/

/-- An image already in RGB mode, as Image.open may return it. -/
def imgRGB : LoadedImage := { mode := "RGB", size := (100, 100) }

/-- A sample bounding box for a detected barcode. -/
def azPos : BPosition :=
  { top_left := (10, 10), top_right := (90, 10),
    bottom_right := (90, 90), bottom_left := (10, 90) }

/-- A successfully decoded Aztec barcode with bytes and position. -/
def azBarcode : Barcode :=
  { format := .Aztec, text := "HELLO", bytes := some [72, 69, 76, 76, 79],
    raw_bytes := none, position := some azPos }

/-- A non-Aztec barcode, first in a mixed result list. -/
def qrBarcode : Barcode :=
  { format := .QRCode, text := "first-in-list", bytes := none,
    raw_bytes := none, position := none }

/-- A second Aztec barcode (the first Aztec one of the mixed list). -/
def azBarcode2 : Barcode :=
  { format := .Aztec, text := "second-aztec", bytes := some [1, 255],
    raw_bytes := none, position := none }

/-- A third Aztec barcode, ignored by the script. -/
def azBarcode3 : Barcode :=
  { format := .Aztec, text := "third-aztec", bytes := none,
    raw_bytes := none, position := none }

/-- An Aztec barcode whose bytes attribute is present but empty. -/
def emptyBytesBarcode : Barcode :=
  { format := .Aztec, text := "HELLO", bytes := some [],
    raw_bytes := none, position := none }

/-- An environment where both libraries are installed, the image loads
in RGB mode, and read_barcodes returns the given list. -/
def envReturning (bs : List Barcode) : AztecEnv :=
  { zxingAvailable := true
    pillowAvailable := true
    openImage := fun _ => .ok imgRGB
    convert := fun im _ => { im with mode := "RGB" }
    readBarcodes := fun _ _ => .ok bs }

/-- A main environment whose image file exists. -/
def mainEnvReturning (bs : List Barcode) : MainEnv :=
  { fileExists := fun _ => true, dec := envReturning bs }

/-- A main environment whose image file does not exist. -/
def mainEnvMissingFile : MainEnv :=
  { fileExists := fun _ => false, dec := envReturning [azBarcode] }

/-- A raw-modules environment where read_barcodes returns the given list. -/
def rawEnvReturning (bs : List Barcode) : RawEnv :=
  { zxingAvailable := true
    pillowAvailable := true
    readBarcodes := fun _ _ => .ok bs }

/-- The result dict decode_aztec assembles for azBarcode. -/
def azResult : ResultDict :=
  { success := true, text := some "HELLO", bytes := some [72, 69, 76, 76, 79],
    format := some "Aztec", position := some (positionDict azPos), error := none }

/-- The result dict decode_aztec assembles for emptyBytesBarcode. -/
def emptyBytesResult : ResultDict :=
  { success := true, text := some "HELLO", bytes := some [],
    format := some "Aztec", position := none, error := none }

/-- The result dict decode_aztec assembles for azBarcode2 (first Aztec
entry of the mixed list). -/
def c10Result : ResultDict :=
  { success := true, text := some "second-aztec", bytes := some [1, 255],
    format := some "Aztec", position := none, error := none }

/-- The mixed list the library reports in the C10 scenario: a QR code
first, then two Aztec codes. -/
def mixedList : List Barcode := [qrBarcode, azBarcode2, azBarcode3]

/-- Whether one library call passes reader options restricted to the
single Aztec symbology (what the spec asserts of every call). -/
def optsRestrictToAztec : LibCall → Bool
  | .readBarcodesCall _ (some o) => decide (o.formats = FormatSpec.aztecOnly)
  | .readBarcodesCall _ none => false
  | .readRenderedCall _ o => decide (o.formats = FormatSpec.aztecOnly)

/-- Whether one library call passes no reader options at all (what
decode_aztec actually does at line 80). -/
def passesNoOptions : LibCall → Bool
  | .readBarcodesCall _ none => true
  | _ => false

/-- The pixel block of module (x, y): the claim's "inside the 10x10
pixel block" of the module, quiet zone included in the offset. -/
def inBlock (x y : Nat) (q : Nat × Nat) : Prop :=
  (quiet_zone + x) * module_size ≤ q.1 ∧
  q.1 < (quiet_zone + x) * module_size + module_size ∧
  (quiet_zone + y) * module_size ≤ q.2 ∧
  q.2 < (quiet_zone + y) * module_size + module_size

instance (x y : Nat) (q : Nat × Nat) : Decidable (inBlock x y q) := by
  unfold inBlock; infer_instance

/-- Boolean form of inBlock, for the fold computations. -/
def inBlockB (x y : Nat) (q : Nat × Nat) : Bool :=
  decide (inBlock x y q)

/-! ## Claims -/

/-- C2: the claim says that decode_aztec, for ANY verbose flag value, on
a loadable image in which the library detects no Aztec barcode, returns
a dict with success=false and a non-null error.  The code violates this
for verbose=True: after setting result["error"] it enters the verbose
diagnostic branch of lines 92-99, whose first statement
reader_options.formats = ... uses the name reader_options, which is
never defined in decode_aztec, so a NameError escapes and no dict is
returned at all.  This theorem evaluates decode_aztec at such an input:
both libraries installed, image loads, read_barcodes returns an empty
list, verbose=true. -/
theorem c2_verbose_no_barcode_raises :
    (decode_aztec (envReturning []) "photo.png" true).1 =
      Except.error (PyExc.nameError "reader_options") := by
  rfl

/-- C3: the claim says decode_aztec never raises an exception to its
caller.  The code violates this: with verbose=true and a result list
whose barcodes are all non-Aztec (here one QR code), the Python-side
filter leaves an empty list and the verbose branch hits the undefined
name reader_options at line 93.  The NameError escapes decode_aztec,
propagates through main, and the interpreter prints a traceback instead
of the "Error: ..." message of line 247. -/
theorem c3_decode_aztec_raises_to_caller :
    (decode_aztec (envReturning [qrBarcode]) "scan.png" true).1 =
      Except.error (PyExc.nameError "reader_options") ∧
    main (mainEnvReturning [qrBarcode])
        { image := "scan.png", verbose := true, raw := false, json := false } =
      { exitCode := 1, stdout := [],
        stderr := [tracebackMsg (PyExc.nameError "reader_options")], decodeCalls := 1 } := by
  exact ⟨rfl, rfl⟩

/-- C1: main exits 0 when the decode result has success=true and 1 when
the decode fails (including the case where decode_aztec lets an
exception escape, which makes the interpreter exit with status 1); and
when the positional image path names a file that does not exist, main
exits 1 after printing a File-not-found message to stderr without
entering decode_aztec. -/
theorem c1_main_exit_codes (env : MainEnv) (args : Args) :
    (env.fileExists args.image = false →
       main env args =
         { exitCode := 1, stdout := [],
           stderr := ["Error: File not found: " ++ args.image], decodeCalls := 0 }) ∧
    (env.fileExists args.image = true →
       (∀ r, (decode_aztec env.dec args.image args.verbose).1 = Except.ok r →
          (main env args).exitCode = if r.success then 0 else 1) ∧
       (∀ e, (decode_aztec env.dec args.image args.verbose).1 = Except.error e →
          (main env args).exitCode = 1)) := by
  constructor
  · intro h
    simp [main, h]
  · intro h
    constructor
    · intro r hr
      simp only [main, h, Bool.true_eq_false, if_false, hr]
      by_cases hj : args.json
      · simp [hj]
      · by_cases hs : r.success
        · simp only [hj, hs, if_true, if_false, Bool.false_eq_true, ite_false, ite_true]
          split <;> rfl
        · simp [hj, hs]
    · intro e he
      simp [main, h, he]

/-- Witness for C1 at concrete inputs: a missing file, a successful
decode, and a failing decode. -/
theorem c1_main_exit_codes_witness :
    (mainEnvMissingFile.fileExists "missing.png" = false ∧
       main mainEnvMissingFile { image := "missing.png", verbose := false, raw := false, json := false } =
         { exitCode := 1, stdout := [],
           stderr := ["Error: File not found: missing.png"], decodeCalls := 0 }) ∧
    (main (mainEnvReturning [azBarcode])
        { image := "a.png", verbose := false, raw := false, json := false }).exitCode = 0 ∧
    (main (mainEnvReturning [])
        { image := "a.png", verbose := false, raw := false, json := false }).exitCode = 1 := by
  refine ⟨⟨rfl, (c1_main_exit_codes _ _).1 rfl⟩, ?_, ?_⟩
  · have h := ((c1_main_exit_codes (mainEnvReturning [azBarcode])
      { image := "a.png", verbose := false, raw := false, json := false }).2 rfl).1 _ rfl
    rw [h]; rfl
  · have h := ((c1_main_exit_codes (mainEnvReturning [])
      { image := "a.png", verbose := false, raw := false, json := false }).2 rfl).1 _ rfl
    rw [h]; rfl

/-- C4 counterexample: the claim quantifies over EVERY invocation of
main with --json, but with --verbose --json on an existing image in
which the library finds no Aztec barcode, decode_aztec dies with the
NameError of line 93, so main prints no JSON at all (the interpreter
prints a traceback to stderr): stdout is empty although --json was
passed. -/
theorem c4_counterexample :
    (main (mainEnvReturning [])
        { image := "a.png", verbose := true, raw := false, json := true }).stdout = [] ∧
    (Args.json { image := "a.png", verbose := true, raw := false, json := true }) = true := by
  exact ⟨rfl, rfl⟩

/-- C4 amended: for every invocation of main with --json in which
decode_aztec returns a result dict (in particular every invocation
without --verbose, since the escaping NameError needs verbose), main
prints exactly one JSON object whose keys are success, text, bytes,
format, position, error (six keys, not the five the spec counts), and
exits 0 on success and 1 on failure. -/
theorem c4_json_output (env : MainEnv) (args : Args) (r : ResultDict)
    (hf : env.fileExists args.image = true)
    (hj : args.json = true)
    (hr : (decode_aztec env.dec args.image args.verbose).1 = Except.ok r) :
    main env args =
      { exitCode := if r.success then 0 else 1,
        stdout := [Json.dump (resultToJson r)], stderr := [], decodeCalls := 1 } ∧
    (resultToJson r).isObj = true ∧
    (resultToJson r).keys = ["success", "text", "bytes", "format", "position", "error"] := by
  refine ⟨?_, rfl, rfl⟩
  simp [main, hf, hj, hr]

/-- Witness for C4 at a concrete successful decode. -/
theorem c4_json_output_witness :
    (mainEnvReturning [azBarcode]).fileExists "a.png" = true ∧
    (decode_aztec (mainEnvReturning [azBarcode]).dec "a.png" false).1 = Except.ok azResult ∧
    (main (mainEnvReturning [azBarcode])
        { image := "a.png", verbose := false, raw := false, json := true } =
      { exitCode := if azResult.success then 0 else 1,
        stdout := [Json.dump (resultToJson azResult)], stderr := [], decodeCalls := 1 } ∧
    (resultToJson azResult).isObj = true ∧
    (resultToJson azResult).keys = ["success", "text", "bytes", "format", "position", "error"]) := by
  exact ⟨rfl, rfl,
    c4_json_output (mainEnvReturning [azBarcode])
      { image := "a.png", verbose := false, raw := false, json := true } azResult rfl rfl rfl⟩

set_option maxRecDepth 4000 in
/-- Every byte value formats as exactly two characters drawn from the
lowercase hex alphabet. -/
lemma hex2_two_lowercase_digits (b : Fin 256) :
    (hex2 b).length = 2 ∧ ∀ c ∈ (hex2 b).data, c ∈ "0123456789abcdef".data := by
  revert b; decide

/-- C5 counterexample: the claim covers every --raw invocation whose
decode result has success=true, but line 241 also tests the truthiness
of result["bytes"], so a successful decode whose bytes list is empty
prints the decoded text instead of the predicted "Bytes: " line
(joining zero pairs would print exactly "Bytes: "). -/
theorem c5_counterexample :
    (decode_aztec (envReturning [emptyBytesBarcode]) "a.png" false).1 =
      Except.ok emptyBytesResult ∧
    emptyBytesResult.success = true ∧
    emptyBytesResult.bytes = some [] ∧
    (main (mainEnvReturning [emptyBytesBarcode])
        { image := "a.png", verbose := false, raw := true, json := false }).stdout = ["HELLO"] ∧
    (main (mainEnvReturning [emptyBytesBarcode])
        { image := "a.png", verbose := false, raw := true, json := false }).stdout ≠
      ["Bytes: " ++ hexJoin []] := by
  refine ⟨rfl, rfl, rfl, rfl, ?_⟩
  decide

/-- C5 amended: for every invocation of main with --raw and without
--json whose decode result has success=true AND a non-empty bytes list,
main prints the raw bytes as space-separated two-digit lowercase hex
pairs prefixed by "Bytes:", one pair per byte, and exits 0. -/
theorem c5_raw_hex_output (env : MainEnv) (args : Args) (r : ResultDict)
    (b : Fin 256) (bs : List (Fin 256))
    (hf : env.fileExists args.image = true)
    (hj : args.json = false)
    (hraw : args.raw = true)
    (hr : (decode_aztec env.dec args.image args.verbose).1 = Except.ok r)
    (hs : r.success = true)
    (hb : r.bytes = some (b :: bs)) :
    (main env args).stdout = ["Bytes: " ++ hexJoin (b :: bs)] ∧
    (main env args).exitCode = 0 ∧
    hexJoin (b :: bs) = String.intercalate " " ((b :: bs).map hex2) ∧
    ∀ x ∈ b :: bs, (hex2 x).length = 2 ∧ ∀ c ∈ (hex2 x).data, c ∈ "0123456789abcdef".data := by
  refine ⟨?_, ?_, rfl, fun x _ => hex2_two_lowercase_digits x⟩ <;>
    simp [main, hf, hj, hraw, hr, hs, hb, bytesTruthy]

/-- Witness for C5 at a concrete successful decode with bytes. -/
theorem c5_raw_hex_output_witness :
    (decode_aztec (mainEnvReturning [azBarcode]).dec "a.png" false).1 = Except.ok azResult ∧
    azResult.success = true ∧
    azResult.bytes = some [72, 69, 76, 76, 79] ∧
    ((main (mainEnvReturning [azBarcode])
        { image := "a.png", verbose := false, raw := true, json := false }).stdout =
      ["Bytes: " ++ hexJoin [72, 69, 76, 76, 79]] ∧
    (main (mainEnvReturning [azBarcode])
        { image := "a.png", verbose := false, raw := true, json := false }).exitCode = 0 ∧
    hexJoin [72, 69, 76, 76, 79] =
      String.intercalate " " (([72, 69, 76, 76, 79] : List (Fin 256)).map hex2) ∧
    ∀ x ∈ ([72, 69, 76, 76, 79] : List (Fin 256)),
      (hex2 x).length = 2 ∧ ∀ c ∈ (hex2 x).data, c ∈ "0123456789abcdef".data) := by
  exact ⟨rfl, rfl, rfl,
    c5_raw_hex_output (mainEnvReturning [azBarcode])
      { image := "a.png", verbose := false, raw := true, json := false }
      azResult 72 [69, 76, 76, 79] rfl rfl rfl rfl rfl rfl⟩

/-- C6: for every square boolean module grid, the image
decode_from_raw_modules hands to the external decoder is square with
width and height both (gridSize + 2*quiet_zone) * module_size, where
quiet_zone = 4 and module_size = 10.  The trace equation shows that the
image passed to read_barcodes is exactly renderImage modules. -/
theorem c6_rendered_image_dimensions (env : RawEnv) (modules : List (List Bool)) (verbose : Bool)
    (hz : env.zxingAvailable = true) (hp : env.pillowAvailable = true) :
    (decode_from_raw_modules env modules verbose).2 =
      [LibCall.readRenderedCall (renderImage modules) rawReaderOptions] ∧
    (renderImage modules).width = (modules.length + 2 * quiet_zone) * module_size ∧
    (renderImage modules).height = (modules.length + 2 * quiet_zone) * module_size ∧
    quiet_zone = 4 ∧ module_size = 10 := by
  refine ⟨?_, rfl, rfl, rfl, rfl⟩
  simp only [decode_from_raw_modules, hz, hp, Bool.true_eq_false, if_false]
  cases h : env.readBarcodes (renderImage modules) rawReaderOptions with
  | error e => rfl
  | ok bs => cases bs <;> rfl

/-- Witness for C6 on a concrete 2x2 grid. -/
theorem c6_rendered_image_dimensions_witness :
    (rawEnvReturning []).zxingAvailable = true ∧
    (rawEnvReturning []).pillowAvailable = true ∧
    ((decode_from_raw_modules (rawEnvReturning []) [[true, false], [false, true]] false).2 =
      [LibCall.readRenderedCall (renderImage [[true, false], [false, true]]) rawReaderOptions] ∧
    (renderImage [[true, false], [false, true]]).width =
      (([[true, false], [false, true]] : List (List Bool)).length + 2 * quiet_zone) * module_size ∧
    (renderImage [[true, false], [false, true]]).height =
      (([[true, false], [false, true]] : List (List Bool)).length + 2 * quiet_zone) * module_size ∧
    quiet_zone = 4 ∧ module_size = 10) := by
  exact ⟨rfl, rfl, c6_rendered_image_dimensions (rawEnvReturning [])
    [[true, false], [false, true]] false rfl rfl⟩

/-- One horizontal run of pixel writes paints exactly the pixels
(px + dx, py) for dx below the loop bound. -/
lemma foldl_setRow_pixel (pix : Nat × Nat → Color) (px py n : Nat) (q : Nat × Nat) :
    ((List.range n).foldl (fun acc dx => setPixel acc (px + dx, py) blackC) pix) q =
      if (List.range n).any (fun dx => decide (q = (px + dx, py))) then blackC else pix q := by
  induction n generalizing pix with
  | zero => simp
  | succ n ih =>
    rw [List.range_succ, List.foldl_append, List.any_append]
    simp only [List.foldl_cons, List.foldl_nil, List.any_cons, List.any_nil]
    by_cases hq : q = (px + n, py)
    · simp [setPixel, hq]
    · simp only [setPixel, if_neg hq, ih, hq]
      simp [hq]

/-- The double loop of drawBlock paints exactly the pixels
(px + dx, py + dy) for dx, dy below the bounds. -/
lemma foldl_setRows_pixel (pix : Nat × Nat → Color) (px py m : Nat) (q : Nat × Nat) :
    ((List.range m).foldl
        (fun acc dy => (List.range module_size).foldl
          (fun acc2 dx => setPixel acc2 (px + dx, py + dy) blackC) acc) pix) q =
      if (List.range m).any (fun dy => (List.range module_size).any
            (fun dx => decide (q = (px + dx, py + dy)))) then blackC
      else pix q := by
  induction m generalizing pix with
  | zero => simp
  | succ m ih =>
    rw [List.range_succ, List.foldl_append, List.any_append]
    simp only [List.foldl_cons, List.foldl_nil, List.any_cons, List.any_nil]
    rw [foldl_setRow_pixel, ih]
    by_cases h1 : ((List.range module_size).any (fun dx => decide (q = (px + dx, py + m)))) = true <;>
      by_cases h2 : ((List.range m).any (fun dy => (List.range module_size).any
        (fun dx => decide (q = (px + dx, py + dy))))) = true <;>
      simp [h1, h2]

/-- drawBlock paints exactly a module_size x module_size block. -/
lemma drawBlock_pixel (pix : Nat × Nat → Color) (px py : Nat) (q : Nat × Nat) :
    drawBlock pix px py q =
      if px ≤ q.1 ∧ q.1 < px + module_size ∧ py ≤ q.2 ∧ q.2 < py + module_size
      then blackC else pix q := by
  have hiff : (((List.range module_size).any (fun dy => (List.range module_size).any
        (fun dx => decide (q = (px + dx, py + dy))))) = true) ↔
      (px ≤ q.1 ∧ q.1 < px + module_size ∧ py ≤ q.2 ∧ q.2 < py + module_size) := by
    simp only [List.any_eq_true, List.mem_range, decide_eq_true_eq, Prod.ext_iff]
    constructor
    · rintro ⟨dy, hdy, dx, hdx, h1, h2⟩
      omega
    · rintro ⟨h1, h2, h3, h4⟩
      exact ⟨q.2 - py, by omega, q.1 - px, by omega, by omega, by omega⟩
  unfold drawBlock
  rw [foldl_setRows_pixel]
  exact if_congr hiff rfl rfl

/-- drawBlock at the offsets used by the renderer, phrased with inBlockB. -/
lemma drawBlock_inBlockB (pix : Nat × Nat → Color) (x y : Nat) (q : Nat × Nat) :
    drawBlock pix ((quiet_zone + x) * module_size) ((quiet_zone + y) * module_size) q =
      if inBlockB x y q then blackC else pix q := by
  rw [drawBlock_pixel]
  refine if_congr ?_ rfl rfl
  simp [inBlockB, inBlock]

/-- The inner x loop of the renderer paints exactly the blocks of the
dark modules of row y considered so far. -/
lemma foldl_gridRow_pixel (modules : List (List Bool)) (pix : Nat × Nat → Color)
    (y n : Nat) (q : Nat × Nat) :
    ((List.range n).foldl
        (fun acc2 x => if gridGet modules y x then
            drawBlock acc2 ((quiet_zone + x) * module_size) ((quiet_zone + y) * module_size)
          else acc2) pix) q =
      if (List.range n).any (fun x => gridGet modules y x && inBlockB x y q) then blackC
      else pix q := by
  induction n generalizing pix with
  | zero => simp
  | succ n ih =>
    rw [List.range_succ, List.foldl_append, List.any_append]
    simp only [List.foldl_cons, List.foldl_nil, List.any_cons, List.any_nil]
    by_cases hg : gridGet modules y n = true
    · rw [if_pos hg, drawBlock_inBlockB, ih]
      by_cases hb : inBlockB n y q = true <;>
        by_cases ha : ((List.range n).any (fun x => gridGet modules y x && inBlockB x y q)) = true <;>
        simp [hb, ha, hg]
    · rw [if_neg hg, ih]
      simp only [Bool.not_eq_true] at hg
      simp [hg]

/-- The full double loop of the renderer paints exactly the blocks of
the dark modules. -/
lemma foldl_grid_pixel (modules : List (List Bool)) (pix : Nat × Nat → Color)
    (m : Nat) (q : Nat × Nat) :
    ((List.range m).foldl
        (fun acc y => (List.range modules.length).foldl
          (fun acc2 x => if gridGet modules y x then
              drawBlock acc2 ((quiet_zone + x) * module_size) ((quiet_zone + y) * module_size)
            else acc2) acc) pix) q =
      if (List.range m).any (fun y => (List.range modules.length).any
            (fun x => gridGet modules y x && inBlockB x y q)) then blackC
      else pix q := by
  induction m generalizing pix with
  | zero => simp
  | succ m ih =>
    rw [List.range_succ, List.foldl_append, List.any_append]
    simp only [List.foldl_cons, List.foldl_nil, List.any_cons, List.any_nil]
    rw [foldl_gridRow_pixel, ih]
    by_cases h1 : ((List.range modules.length).any
        (fun x => gridGet modules m x && inBlockB x m q)) = true <;>
      by_cases h2 : ((List.range m).any (fun y => (List.range modules.length).any
        (fun x => gridGet modules y x && inBlockB x y q))) = true <;>
      simp [h1, h2]

/-- Closed form of the pixel function of the rendered image. -/
lemma renderPixels_pixel (modules : List (List Bool)) (q : Nat × Nat) :
    renderPixels modules q =
      if (List.range modules.length).any (fun y => (List.range modules.length).any
            (fun x => gridGet modules y x && inBlockB x y q)) then blackC
      else whiteC :=
  foldl_grid_pixel modules (fun _ => whiteC) modules.length q

/-- C9: in the image rendered from a square boolean grid, a pixel is
black exactly when it lies inside the 10x10 block of a module whose
grid entry is True; every pixel not inside such a block is white; and
in particular the whole 4-module quiet-zone border is white. -/
theorem c9_pixel_characterization (modules : List (List Bool))
    (hsq : ∀ row ∈ modules, row.length = modules.length) (X Y : Nat) :
    ((renderImage modules).pixels (X, Y) = blackC ↔
       ∃ y < modules.length, ∃ x < modules.length,
         gridGet modules y x = true ∧ inBlock x y (X, Y)) ∧
    ((¬ ∃ y < modules.length, ∃ x < modules.length,
         gridGet modules y x = true ∧ inBlock x y (X, Y)) →
       (renderImage modules).pixels (X, Y) = whiteC) ∧
    (X < quiet_zone * module_size ∨ Y < quiet_zone * module_size ∨
       (quiet_zone + modules.length) * module_size ≤ X ∨
       (quiet_zone + modules.length) * module_size ≤ Y →
       (renderImage modules).pixels (X, Y) = whiteC) := by
  have hpix : (renderImage modules).pixels (X, Y) = renderPixels modules (X, Y) := rfl
  have hchar := renderPixels_pixel modules (X, Y)
  have hiff : (((List.range modules.length).any (fun y => (List.range modules.length).any
        (fun x => gridGet modules y x && inBlockB x y (X, Y)))) = true) ↔
      (∃ y < modules.length, ∃ x < modules.length,
        gridGet modules y x = true ∧ inBlock x y (X, Y)) := by
    simp [List.any_eq_true, List.mem_range, Bool.and_eq_true, inBlockB, decide_eq_true_eq]
  by_cases hA : ((List.range modules.length).any (fun y => (List.range modules.length).any
      (fun x => gridGet modules y x && inBlockB x y (X, Y)))) = true
  · have hpb : (renderImage modules).pixels (X, Y) = blackC := by
      rw [hpix, hchar, if_pos hA]
    have hex := hiff.mp hA
    refine ⟨⟨fun _ => hex, fun _ => hpb⟩, fun hn => absurd hex hn, fun hborder => ?_⟩
    exfalso
    obtain ⟨y, hy, x, hx, hg, hib⟩ := hex
    unfold inBlock at hib
    simp only [quiet_zone, module_size] at hib hborder
    omega
  · have hpw : (renderImage modules).pixels (X, Y) = whiteC := by
      rw [hpix, hchar, if_neg hA]
    have hnex : ¬ ∃ y < modules.length, ∃ x < modules.length,
        gridGet modules y x = true ∧ inBlock x y (X, Y) := fun hex => hA (hiff.mpr hex)
    exact ⟨⟨fun hb => absurd (hpw.symm.trans hb) (by decide), fun hex => absurd hex hnex⟩,
      fun _ => hpw, fun _ => hpw⟩

/-- Witness for C9 on the 1x1 grid with a single dark module: its block
covers pixels 40-49 in each coordinate, so pixel (45, 45) is black. -/
theorem c9_pixel_characterization_witness :
    (∀ row ∈ ([[true]] : List (List Bool)), row.length = ([[true]] : List (List Bool)).length) ∧
    (((renderImage [[true]]).pixels (45, 45) = blackC ↔
       ∃ y < ([[true]] : List (List Bool)).length, ∃ x < ([[true]] : List (List Bool)).length,
         gridGet [[true]] y x = true ∧ inBlock x y (45, 45)) ∧
    ((¬ ∃ y < ([[true]] : List (List Bool)).length, ∃ x < ([[true]] : List (List Bool)).length,
         gridGet [[true]] y x = true ∧ inBlock x y (45, 45)) →
       (renderImage [[true]]).pixels (45, 45) = whiteC) ∧
    (45 < quiet_zone * module_size ∨ 45 < quiet_zone * module_size ∨
       (quiet_zone + ([[true]] : List (List Bool)).length) * module_size ≤ 45 ∨
       (quiet_zone + ([[true]] : List (List Bool)).length) * module_size ≤ 45 →
       (renderImage [[true]]).pixels (45, 45) = whiteC)) := by
  exact ⟨by simp, c9_pixel_characterization [[true]] (by simp) 45 45⟩

/-- Exhaustive case analysis of decode_aztec: it returns an error dict
with no library call, an error dict after one optionless library call,
the escaping NameError after one optionless library call, or the
success dict of the first Aztec-filtered barcode after one optionless
library call. -/
lemma decode_aztec_shape (env : AztecEnv) (p : String) (v : Bool) :
    (∃ msg : String, decode_aztec env p v =
       (Except.ok { initResult with error := some msg }, [])) ∨
    (∃ (img : LoadedImage) (msg : String), decode_aztec env p v =
       (Except.ok { initResult with error := some msg }, [.readBarcodesCall img none])) ∨
    (∃ img : LoadedImage, decode_aztec env p v =
       (Except.error (PyExc.nameError "reader_options"), [.readBarcodesCall img none])) ∨
    (∃ (img : LoadedImage) (b : Barcode), decode_aztec env p v = (Except.ok
       { success := true, text := some b.text, bytes := b.bytes.or b.raw_bytes,
         format := some (strFormat b.format), position := b.position.map positionDict,
         error := none }, [.readBarcodesCall img none])) := by
  unfold decode_aztec
  by_cases hz : env.zxingAvailable = false
  · rw [if_pos hz]
    exact Or.inl ⟨_, rfl⟩
  · rw [if_neg hz]
    by_cases hp : env.pillowAvailable = false
    · rw [if_pos hp]
      exact Or.inl ⟨_, rfl⟩
    · rw [if_neg hp]
      cases ho : env.openImage p with
      | error e => exact Or.inl ⟨_, rfl⟩
      | ok img0 =>
        dsimp only
        cases hr : env.readBarcodes (modeConvert env img0) none with
        | error e => exact Or.inr (Or.inl ⟨_, _, rfl⟩)
        | ok allB =>
          dsimp only
          cases hf : allB.filter (fun b => decide (b.format = BarcodeFormat.Aztec)) with
          | nil =>
            dsimp only
            by_cases hv : v = true
            · rw [if_pos hv]
              exact Or.inr (Or.inr (Or.inl ⟨_, rfl⟩))
            · rw [if_neg hv]
              exact Or.inr (Or.inl ⟨_, _, rfl⟩)
          | cons b tail =>
            dsimp only
            refine Or.inr (Or.inr (Or.inr ⟨modeConvert env img0, b, ?_⟩))
            cases hb : b.bytes <;> cases hrb : b.raw_bytes <;> cases hpos : b.position <;>
              simp [hb, hrb, hpos, Option.or, initResult]

/-- Exhaustive case analysis of decode_from_raw_modules: an error dict
with no library call, an error dict after the one library call on the
rendered image, or the success dict of the first returned barcode after
that call. -/
lemma decode_from_raw_modules_shape (env : RawEnv) (m : List (List Bool)) (v : Bool) :
    (∃ msg : String, decode_from_raw_modules env m v =
       ({ initResult with error := some msg }, [])) ∨
    (∃ msg : String, decode_from_raw_modules env m v =
       ({ initResult with error := some msg },
        [.readRenderedCall (renderImage m) rawReaderOptions])) ∨
    (∃ b : Barcode, decode_from_raw_modules env m v =
       ({ success := true, text := some b.text, bytes := b.bytes,
          format := some (strFormat b.format), position := none, error := none },
        [.readRenderedCall (renderImage m) rawReaderOptions])) := by
  unfold decode_from_raw_modules
  by_cases hz : env.zxingAvailable = false
  · rw [if_pos hz]
    exact Or.inl ⟨_, rfl⟩
  · rw [if_neg hz]
    by_cases hp : env.pillowAvailable = false
    · rw [if_pos hp]
      exact Or.inl ⟨_, rfl⟩
    · rw [if_neg hp]
      cases hr : env.readBarcodes (renderImage m) rawReaderOptions with
      | error e => exact Or.inr (Or.inl ⟨_, rfl⟩)
      | ok bs =>
        dsimp only
        cases bs with
        | nil => exact Or.inr (Or.inl ⟨_, rfl⟩)
        | cons b tail =>
          dsimp only
          refine Or.inr (Or.inr ⟨b, ?_⟩)
          cases hb : b.bytes <;> simp [hb, initResult]

/-- C7 counterexample: the claim says every read_barcodes call passes
reader options restricting decoding to the Aztec symbology (with
try-harder).  But decode_aztec, line 80, calls
zxingcpp.read_barcodes(img) with no ReaderOptions argument at all (the
library default reads every format), and only afterwards filters the
results to Aztec in Python.  Evaluated on a concrete environment, the
single library call of decode_aztec carries no options. -/
theorem c7_counterexample :
    (decode_aztec (envReturning [azBarcode]) "a.png" false).2 =
      [LibCall.readBarcodesCall imgRGB none] ∧
    ((decode_aztec (envReturning [azBarcode]) "a.png" false).2.all optsRestrictToAztec) = false := by
  exact ⟨rfl, rfl⟩

/-- C7 amended: only decode_from_raw_modules calls read_barcodes with
reader options restricting decoding to the Aztec format and try-harder
mode; decode_aztec calls read_barcodes with no reader options (library
defaults) and instead filters the returned barcodes to the Aztec format
in the script. -/
theorem c7_reader_options (envA : AztecEnv) (path : String) (v : Bool)
    (envR : RawEnv) (modules : List (List Bool)) (w : Bool)
    (c : LibCall) (hc : c ∈ (decode_aztec envA path v).2)
    (c2 : LibCall) (hc2 : c2 ∈ (decode_from_raw_modules envR modules w).2) :
    passesNoOptions c = true ∧
    c2 = LibCall.readRenderedCall (renderImage modules) rawReaderOptions ∧
    rawReaderOptions.formats = FormatSpec.aztecOnly ∧
    rawReaderOptions.try_harder = true := by
  refine ⟨?_, ?_, rfl, rfl⟩
  · rcases decode_aztec_shape envA path v with ⟨msg, h⟩ | ⟨img, msg, h⟩ | ⟨img, h⟩ | ⟨img, b, h⟩ <;>
      rw [h] at hc <;> simp at hc <;> subst hc <;> rfl
  · rcases decode_from_raw_modules_shape envR modules w with ⟨msg, h⟩ | ⟨msg, h⟩ | ⟨b, h⟩ <;>
      rw [h] at hc2 <;> simp at hc2 <;> subst hc2 <;> rfl

/-- Witness for C7 at concrete calls of both functions. -/
theorem c7_reader_options_witness :
    LibCall.readBarcodesCall imgRGB none ∈ (decode_aztec (envReturning [azBarcode]) "a.png" false).2 ∧
    LibCall.readRenderedCall (renderImage [[true]]) rawReaderOptions ∈
      (decode_from_raw_modules (rawEnvReturning []) [[true]] false).2 ∧
    (passesNoOptions (LibCall.readBarcodesCall imgRGB none) = true ∧
     LibCall.readRenderedCall (renderImage [[true]]) rawReaderOptions =
       LibCall.readRenderedCall (renderImage [[true]]) rawReaderOptions ∧
     rawReaderOptions.formats = FormatSpec.aztecOnly ∧
     rawReaderOptions.try_harder = true) := by
  have hm1 : LibCall.readBarcodesCall imgRGB none ∈
      (decode_aztec (envReturning [azBarcode]) "a.png" false).2 := by
    show LibCall.readBarcodesCall imgRGB none ∈ [LibCall.readBarcodesCall imgRGB none]
    exact List.mem_singleton.mpr rfl
  have hm2 : LibCall.readRenderedCall (renderImage [[true]]) rawReaderOptions ∈
      (decode_from_raw_modules (rawEnvReturning []) [[true]] false).2 := by
    show LibCall.readRenderedCall (renderImage [[true]]) rawReaderOptions ∈
      [LibCall.readRenderedCall (renderImage [[true]]) rawReaderOptions]
    exact List.mem_singleton.mpr rfl
  exact ⟨hm1, hm2, c7_reader_options (envReturning [azBarcode]) "a.png" false
    (rawEnvReturning []) [[true]] false _ hm1 _ hm2⟩

/-- C8: every dict returned by decode_aztec or decode_from_raw_modules
has exactly the six keys success, text, bytes, format, position, error
(witnessed by the key list of its JSON object; in the embedding the
dict is a structure with exactly these six fields, matching the literal
of lines 39-46 and 146-153 to whose keys the script only ever assigns),
success is a boolean by construction, and success is true exactly when
error is None. -/
theorem c8_result_dict_invariant :
    (∀ (env : AztecEnv) (p : String) (v : Bool) (r : ResultDict),
        (decode_aztec env p v).1 = Except.ok r → (r.success = true ↔ r.error = none)) ∧
    (∀ (env : RawEnv) (m : List (List Bool)) (v : Bool),
        ((decode_from_raw_modules env m v).1.success = true ↔
          (decode_from_raw_modules env m v).1.error = none)) ∧
    (∀ r : ResultDict, (resultToJson r).keys =
        ["success", "text", "bytes", "format", "position", "error"]) := by
  refine ⟨?_, ?_, fun r => rfl⟩
  · intro env p v r h
    rcases decode_aztec_shape env p v with ⟨msg, hs⟩ | ⟨img, msg, hs⟩ | ⟨img, hs⟩ | ⟨img, b, hs⟩ <;>
      rw [hs] at h <;> dsimp only at h
    · injection h with h
      subst h; simp [initResult]
    · injection h with h
      subst h; simp [initResult]
    · exact absurd h (by simp)
    · injection h with h
      subst h; simp
  · intro env m v
    rcases decode_from_raw_modules_shape env m v with ⟨msg, hs⟩ | ⟨msg, hs⟩ | ⟨b, hs⟩ <;>
      rw [hs] <;> simp [initResult]

/-- Witness for C8 at concrete runs of both functions. -/
theorem c8_result_dict_invariant_witness :
    (decode_aztec (envReturning [azBarcode]) "a.png" false).1 = Except.ok azResult ∧
    (azResult.success = true ↔ azResult.error = none) ∧
    ((decode_from_raw_modules (rawEnvReturning []) [[true]] false).1.success = true ↔
      (decode_from_raw_modules (rawEnvReturning []) [[true]] false).1.error = none) ∧
    (resultToJson initResult).keys = ["success", "text", "bytes", "format", "position", "error"] := by
  exact ⟨rfl, c8_result_dict_invariant.1 (envReturning [azBarcode]) "a.png" false azResult rfl,
    c8_result_dict_invariant.2.1 (rawEnvReturning []) [[true]] false,
    c8_result_dict_invariant.2.2 initResult⟩

/-- C10 counterexample: the claim says the fields are filled from the
first barcode in the returned list.  When the returned list is
[QR, Aztec, Aztec], decode_aztec first filters to Aztec format, so the
fields come from the SECOND barcode of the returned list, not the
first. -/
theorem c10_counterexample :
    (decode_aztec (envReturning mixedList) "multi.png" false).1 = Except.ok c10Result ∧
    mixedList.headD azBarcode = qrBarcode ∧
    qrBarcode.text = "first-in-list" ∧
    c10Result.text = some "second-aztec" ∧
    c10Result.text ≠ some qrBarcode.text := by
  refine ⟨rfl, rfl, rfl, rfl, by decide⟩

/-- C10 amended: decode_aztec fills text, bytes, format and position
from the first AZTEC-format barcode of the returned list (the list is
filtered to Aztec format first), ignoring non-Aztec entries and all
later Aztec entries; decode_from_raw_modules fills text, bytes and
format from the first barcode of its returned list (position is never
set there), ignoring all later ones.  The result depends only on that
first (filtered) barcode: the rest of the list is arbitrary. -/
theorem c10_first_aztec_barcode (env : AztecEnv) (p : String) (v : Bool)
    (img0 : LoadedImage) (l : List Barcode) (b : Barcode) (rest : List Barcode)
    (envR : RawEnv) (m : List (List Bool)) (w : Bool) (b2 : Barcode) (rest2 : List Barcode)
    (hz : env.zxingAvailable = true) (hp : env.pillowAvailable = true)
    (ho : env.openImage p = Except.ok img0)
    (hr : env.readBarcodes (modeConvert env img0) none = Except.ok l)
    (hf : l.filter (fun bb => decide (bb.format = BarcodeFormat.Aztec)) = b :: rest)
    (hz2 : envR.zxingAvailable = true) (hp2 : envR.pillowAvailable = true)
    (hr2 : envR.readBarcodes (renderImage m) rawReaderOptions = Except.ok (b2 :: rest2)) :
    (decode_aztec env p v).1 = Except.ok
      { success := true, text := some b.text,
        bytes := b.bytes.or b.raw_bytes,
        format := some (strFormat b.format),
        position := b.position.map positionDict, error := none } ∧
    (decode_from_raw_modules envR m w).1 =
      { success := true, text := some b2.text, bytes := b2.bytes,
        format := some (strFormat b2.format), position := none, error := none } := by
  constructor
  · unfold decode_aztec
    simp only [hz, hp, Bool.true_eq_false, if_false, ho, hr, hf]
    cases hb : b.bytes with
    | some bs => cases hpos : b.position <;> simp [hb, hpos, Option.or, initResult]
    | none =>
      cases hrb : b.raw_bytes <;> cases hpos : b.position <;>
        simp [hb, hrb, hpos, Option.or, initResult]
  · unfold decode_from_raw_modules
    simp only [hz2, hp2, Bool.true_eq_false, if_false, hr2]
    cases hb : b2.bytes <;> simp [hb, initResult]

/-- Witness for C10 on the mixed list [QR, Aztec, Aztec]. -/
theorem c10_first_aztec_barcode_witness :
    (envReturning mixedList).readBarcodes
        (modeConvert (envReturning mixedList) imgRGB) none = Except.ok mixedList ∧
    mixedList.filter (fun bb => decide (bb.format = BarcodeFormat.Aztec)) =
      azBarcode2 :: [azBarcode3] ∧
    ((decode_aztec (envReturning mixedList) "multi.png" false).1 = Except.ok
      { success := true, text := some azBarcode2.text,
        bytes := azBarcode2.bytes.or azBarcode2.raw_bytes,
        format := some (strFormat azBarcode2.format),
        position := azBarcode2.position.map positionDict, error := none } ∧
    (decode_from_raw_modules (rawEnvReturning [azBarcode2, azBarcode3]) [[true]] false).1 =
      { success := true, text := some azBarcode2.text, bytes := azBarcode2.bytes,
        format := some (strFormat azBarcode2.format), position := none, error := none }) := by
  exact ⟨rfl, rfl, c10_first_aztec_barcode (envReturning mixedList) "multi.png" false
    imgRGB mixedList azBarcode2 [azBarcode3]
    (rawEnvReturning [azBarcode2, azBarcode3]) [[true]] false azBarcode2 [azBarcode3]
    rfl rfl rfl rfl rfl rfl rfl rfl⟩

end AztecDecode
